import Mathlib

/-!
Request metrics of kvdi, `pkg/api/api_metrics.go`.

A shallow embedding of the Prometheus instrumentation of the kvdi API server:
the response interceptor `apiResponseWriter`, the byte-counting connection
`websocketWatcher` and the middleware `prometheusMiddleware`.

Modelling conventions.

* The process-wide Prometheus vectors are fields of one record `Metrics` that is
  threaded through every operation.  A counter vector is a function from its
  label values to a natural number; a gauge is an integer; the histogram keeps,
  for each label pair, the list of observed values.  Prometheus stores counter
  values as `float64`; the byte counts added here are non-negative integers, and
  sums of such values are exact in `float64` below `2^53`, so counters are
  modelled by `Nat`.
* Go code that is not part of the file (`apiutil.GetGorillaPath`,
  `apiutil.GetNamespacedNameFromRequest`, the wrapped `http.ResponseWriter`, the
  hijacked `net.Conn`) is an input: the request record carries the two `apiutil`
  results, and each call into the wrapped writer or connection carries the
  result that call produced.
* The next handler is the sequence of calls it makes on the interceptor and on
  the connection it obtained, ending either by returning or by a panic.
-/

namespace Kvdi

/-! ## Go library functions used by the file -/

/-- Go `strings.HasSuffix`. -/
def HasSuffix (s suffix : String) : Bool :=
  suffix.data.isSuffixOf s.data

/-- Go `strings.TrimSuffix`: `s` without the trailing `suffix`, or `s` itself. -/
def TrimSuffix (s suffix : String) : String :=
  if HasSuffix s suffix then ⟨s.data.take (s.data.length - suffix.data.length)⟩ else s

/-- First element of Go `strings.Split(s, string sep)` for a one-character separator:
the text in front of the first occurrence of `sep`, or all of `s` when `sep`
does not occur. -/
def SplitFirst (s : String) (sep : Char) : String :=
  ⟨s.data.takeWhile (fun c => c != sep)⟩

/-- Go `strconv.Itoa`. -/
def Itoa (n : Int) : String :=
  toString n

/-- Go `http.StatusOK`. -/
def StatusOK : Int := 200

/-- Go `http.StatusSwitchingProtocols`. -/
def StatusSwitchingProtocols : Int := 101

/-- Go `error` values; `none` is `nil`. -/
abbrev Error := String

/-! ## Prometheus gatherers -/

/-- The package-level Prometheus collectors. -/
structure Metrics where
  /-- Histogram `kvdi_http_request_duration_seconds`, labels `path`, `method`. -/
  requestDuration : String → String → List Nat
  /-- Counter `kvdi_http_requests_total`, labels `path`, `code`, `method`. -/
  requestsTotal : String → String → String → Nat
  /-- Counter `kvdi_ws_display_bytes_sent_total`, labels `desktop`, `client`. -/
  displayBytesSentTotal : String → String → Nat
  /-- Counter `kvdi_ws_audio_bytes_sent_total`, labels `desktop`, `client`. -/
  audioBytesSentTotal : String → String → Nat
  /-- Counter `kvdi_ws_display_bytes_rcvd_total`, labels `desktop`, `client`. -/
  displayBytesReceivedTotal : String → String → Nat
  /-- Counter `kvdi_ws_audio_bytes_rcvd_total`, labels `desktop`, `client`. -/
  audioBytesReceivedTotal : String → String → Nat
  /-- Gauge `kvdi_active_display_streams`. -/
  activeDisplayStreams : Int
  /-- Gauge `kvdi_active_audio_streams`. -/
  activeAudioStreams : Int

/-- A registry in which nothing has been recorded yet. -/
def Metrics.zero : Metrics :=
  { requestDuration := fun _ _ => []
    requestsTotal := fun _ _ _ => 0
    displayBytesSentTotal := fun _ _ => 0
    audioBytesSentTotal := fun _ _ => 0
    displayBytesReceivedTotal := fun _ _ => 0
    audioBytesReceivedTotal := fun _ _ => 0
    activeDisplayStreams := 0
    activeAudioStreams := 0 }

/-- Counter `vec.With({desktop, client}).Add(v)` on a two-label counter vector. -/
def addAt (vec : String → String → Nat) (desktop client : String) (v : Nat) :
    String → String → Nat :=
  fun d c => if d = desktop ∧ c = client then vec d c + v else vec d c

/-- Counter `vec.With({path, method, code}).Inc()` on the request counter. -/
def incAt (vec : String → String → String → Nat) (path code method : String) :
    String → String → String → Nat :=
  fun p c m => if p = path ∧ c = code ∧ m = method then vec p c m + 1 else vec p c m

/-- Histogram `vec.With({path, method}).Observe(v)`. -/
def observeAt (vec : String → String → List Nat) (path method : String) (v : Nat) :
    String → String → List Nat :=
  fun p m => if p = path ∧ m = method then vec p m ++ [v] else vec p m

/-! ## The wrapped objects -/

/-- The `http.ResponseWriter` handed to the middleware, as far as the file uses it. -/
structure ResponseWriter where
  /-- Whether the dynamic type implements `http.Hijacker`. -/
  isHijacker : Bool
  /-- The codes its `WriteHeader` has received, oldest first. -/
  headerCodes : List Int

/-- The request, as far as the middleware reads it. -/
structure Request where
  /-- Result of `apiutil.GetGorillaPath(r)`. -/
  gorillaPath : String
  /-- Field `r.Method`. -/
  Method : String
  /-- Field `r.RemoteAddr`. -/
  RemoteAddr : String
  /-- Result of `apiutil.GetNamespacedNameFromRequest(r).String()`. -/
  namespacedName : String

/-- Outcome of a Go call that either returns a value or panics. -/
inductive GoResult (α : Type) where
  | ret (a : α)
  | panicked

/-! ## `apiResponseWriter` -/

/-- Go `type apiResponseWriter struct`. -/
structure apiResponseWriter where
  ResponseWriter : ResponseWriter
  status : Int
  isAudio : Bool
  isDisplay : Bool
  clientAddr : String
  desktopName : String

/-- The interceptor the middleware builds around the writer `w` (source line 162):
`&apiResponseWriter{ResponseWriter: w, status: http.StatusOK}`, every other
field at its zero value. -/
def apiResponseWriter.wrap (w : Kvdi.ResponseWriter) : apiResponseWriter :=
  { ResponseWriter := w, status := StatusOK, isAudio := false, isDisplay := false
    clientAddr := "", desktopName := "" }

/-- Go `func (a *apiResponseWriter) WriteHeader(s int)`. -/
def apiResponseWriter.WriteHeader (a : apiResponseWriter) (s : Int) : apiResponseWriter :=
  { a with
    ResponseWriter := { a.ResponseWriter with headerCodes := a.ResponseWriter.headerCodes ++ [s] }
    status := s }

/-- Go `func (a *apiResponseWriter) Status() int`. -/
def apiResponseWriter.Status (a : apiResponseWriter) : Int := a.status

/-! ## `websocketWatcher` -/

/-- Go `type websocketWatcher struct`.  The embedded `net.Conn` is kept as an
optional connection identifier, `none` being the nil interface value. -/
structure websocketWatcher where
  Conn : Option Nat
  rsize : Nat
  wsize : Nat
  isAudio : Bool
  isDisplay : Bool
  clientAddr : String
  desktopName : String

/-- Go `func (a *apiResponseWriter) Hijack() (net.Conn, *bufio.ReadWriter, error)`.
`conn` and `err` are what `h.Hijack()` of the wrapped writer returned; the
`*bufio.ReadWriter` is handed through untouched and left out.  The type
assertion `a.ResponseWriter.(http.Hijacker)` has the single-value form, which
panics when the wrapped writer is no `http.Hijacker`. -/
def apiResponseWriter.Hijack (a : apiResponseWriter) (conn : Option Nat) (err : Option Error) :
    GoResult (apiResponseWriter × websocketWatcher × Option Error) :=
  if a.ResponseWriter.isHijacker then
    let a1 : apiResponseWriter :=
      if err = none ∧ a.status = StatusOK then { a with status := StatusSwitchingProtocols } else a
    .ret (a1,
      { Conn := conn, rsize := 0, wsize := 0
        isAudio := a.isAudio, isDisplay := a.isDisplay
        clientAddr := a.clientAddr, desktopName := a.desktopName },
      err)
  else
    .panicked

/-- Go `func (w *websocketWatcher) Read(b []byte) (int, error)`.  `b` is the length
of the buffer passed in and `(size, err)` is what `w.Conn.Read(b)` returned.
The result is the watcher, the registry and the pair handed to the caller. -/
def websocketWatcher.Read (w : websocketWatcher) (m : Metrics) (b : Nat) (size : Nat)
    (err : Option Error) : websocketWatcher × Metrics × (Nat × Option Error) :=
  let _ := b
  let w1 := { w with rsize := w.rsize + size }
  let m1 : Metrics :=
    if w1.isDisplay then
      { m with
        displayBytesReceivedTotal := addAt m.displayBytesReceivedTotal w1.desktopName w1.clientAddr size }
    else m
  let m2 : Metrics :=
    if w1.isAudio then
      { m1 with
        audioBytesReceivedTotal := addAt m1.audioBytesReceivedTotal w1.desktopName w1.clientAddr size }
    else m1
  (w1, m2, (size, err))

/-- Go `func (w *websocketWatcher) Write(b []byte) (int, error)`.  `b` is the length
of the buffer passed in and `(size, err)` is what `w.Conn.Write(b)` returned. -/
def websocketWatcher.Write (w : websocketWatcher) (m : Metrics) (b : Nat) (size : Nat)
    (err : Option Error) : websocketWatcher × Metrics × (Nat × Option Error) :=
  let _ := b
  let w1 := { w with wsize := w.wsize + size }
  let m1 : Metrics :=
    if w1.isDisplay then
      { m with
        displayBytesSentTotal := addAt m.displayBytesSentTotal w1.desktopName w1.clientAddr size }
    else m
  let m2 : Metrics :=
    if w1.isAudio then
      { m1 with
        audioBytesSentTotal := addAt m1.audioBytesSentTotal w1.desktopName w1.clientAddr size }
    else m1
  (w1, m2, (size, err))

/-- One call on a byte-counting connection, with the buffer length passed in and
the `(size, err)` the wrapped connection returned. -/
inductive ConnCall where
  | read (b : Nat) (size : Nat) (err : Option Error)
  | write (b : Nat) (size : Nat) (err : Option Error)

/-- The watcher and registry after one call on the watcher. -/
def websocketWatcher.call (w : websocketWatcher) (m : Metrics) :
    ConnCall → websocketWatcher × Metrics
  | .read b size err => ((w.Read m b size err).1, (w.Read m b size err).2.1)
  | .write b size err => ((w.Write m b size err).1, (w.Write m b size err).2.1)

/-- The watcher and registry after a sequence of calls on the watcher. -/
def websocketWatcher.calls (w : websocketWatcher) (m : Metrics) :
    List ConnCall → websocketWatcher × Metrics
  | [] => (w, m)
  | c :: cs => websocketWatcher.calls (w.call m c).1 (w.call m c).2 cs

/-- Sum of the byte counts the wrapped connection returned from the reads. -/
def readTotal : List ConnCall → Nat
  | [] => 0
  | .read _ size _ :: cs => size + readTotal cs
  | .write _ _ _ :: cs => readTotal cs

/-- Sum of the byte counts the wrapped connection returned from the writes. -/
def writeTotal : List ConnCall → Nat
  | [] => 0
  | .read _ _ _ :: cs => writeTotal cs
  | .write _ size _ :: cs => size + writeTotal cs

/-! ## The next handler -/

/-- One step of the next handler: a call on the interceptor, a call on the
connection the interceptor handed out last, or a panic of the handler's own.
Calls into wrapped objects carry what the wrapped object returned. -/
inductive HandlerOp where
  | writeHeader (s : Int)
  | hijack (conn : Option Nat) (err : Option Error)
  | read (b : Nat) (size : Nat) (err : Option Error)
  | write (b : Nat) (size : Nat) (err : Option Error)
  | panic

/-- What the handler and the middleware share while the handler runs. -/
structure HandlerState where
  metrics : Metrics
  aw : apiResponseWriter
  /-- The connection returned by the latest `Hijack`, if any. -/
  conn : Option websocketWatcher

/-- One handler step.  A `Read` or `Write` without a connection (none handed
out, or a nil `net.Conn` inside the watcher) is a nil dereference, a panic. -/
def HandlerState.step (s : HandlerState) : HandlerOp → GoResult HandlerState
  | .writeHeader c => .ret { s with aw := s.aw.WriteHeader c }
  | .hijack conn err =>
    match s.aw.Hijack conn err with
    | .ret (a, w, _) => .ret { s with aw := a, conn := some w }
    | .panicked => .panicked
  | .read b size err =>
    match s.conn with
    | some w =>
      if w.Conn.isSome then
        .ret { s with metrics := (w.Read s.metrics b size err).2.1
                      conn := some (w.Read s.metrics b size err).1 }
      else .panicked
    | none => .panicked
  | .write b size err =>
    match s.conn with
    | some w =>
      if w.Conn.isSome then
        .ret { s with metrics := (w.Write s.metrics b size err).2.1
                      conn := some (w.Write s.metrics b size err).1 }
      else .panicked
    | none => .panicked
  | .panic => .panicked

/-- How a Go call ended. -/
inductive Outcome where
  | returned
  | panicked
  deriving DecidableEq, Repr

/-- The call `next.ServeHTTP(aw, r)`: the steps run in order; the first panic ends
the run, leaving the state as it was when the panic was raised. -/
def ServeHTTP : List HandlerOp → HandlerState → Outcome × HandlerState
  | [], s => (.returned, s)
  | op :: ops, s =>
    match s.step op with
    | .ret s1 => ServeHTTP ops s1
    | .panicked => (.panicked, s)

/-! ## `prometheusMiddleware` -/

/-- The normalized path: `strings.TrimSuffix(apiutil.GetGorillaPath(r), "/")`. -/
def Request.path (r : Request) : String :=
  TrimSuffix r.gorillaPath "/"

/-- The local `isWebsocket` of the middleware. -/
def isWebsocket (path : String) : Bool :=
  HasSuffix path "websockify" || HasSuffix path "wsaudio"

/-- The middleware up to the call of the next handler (source lines 153 to 183).
Creating the timer records the start time and touches no collector value. -/
def preRequest (m : Metrics) (w : ResponseWriter) (r : Request) : HandlerState :=
  let path := r.path
  let aw := apiResponseWriter.wrap w
  if !isWebsocket path then
    { metrics := m, aw := aw, conn := none }
  else
    let aw1 := { aw with clientAddr := SplitFirst r.RemoteAddr ':' }
    let aw2 := { aw1 with desktopName := r.namespacedName }
    if HasSuffix path "websockify" then
      { metrics := { m with activeDisplayStreams := m.activeDisplayStreams + 1 }
        aw := { aw2 with isDisplay := true }, conn := none }
    else if HasSuffix path "wsaudio" then
      { metrics := { m with activeAudioStreams := m.activeAudioStreams + 1 }
        aw := { aw2 with isAudio := true }, conn := none }
    else
      { metrics := m, aw := aw2, conn := none }

/-- The middleware after the next handler has returned (source lines 188 to 207).
`elapsed` is the duration the timer measured. -/
def postRequest (m : Metrics) (aw : apiResponseWriter) (r : Request) (elapsed : Nat) : Metrics :=
  let path := r.path
  if !isWebsocket path then
    let m1 := { m with requestsTotal := incAt m.requestsTotal path (Itoa aw.Status) r.Method }
    { m1 with requestDuration := observeAt m1.requestDuration path r.Method elapsed }
  else if HasSuffix path "websockify" then
    { m with activeDisplayStreams := m.activeDisplayStreams - 1 }
  else if HasSuffix path "wsaudio" then
    { m with activeAudioStreams := m.activeAudioStreams - 1 }
  else m

/-- The handler function returned by Go `prometheusMiddleware(next)`, applied to
`(w, r)` in registry `m`.  There is no `defer` and no `recover` in it: when the
next handler panics the function is left at once and the code after
`next.ServeHTTP(aw, r)` is not run.  The result is how the call ended, the
registry afterwards and the interceptor as the handler left it. -/
def prometheusMiddleware (next : List HandlerOp) (elapsed : Nat) (m : Metrics)
    (w : ResponseWriter) (r : Request) : Outcome × Metrics × apiResponseWriter :=
  match ServeHTTP next (preRequest m w r) with
  | (.returned, s) => (.returned, postRequest s.metrics s.aw r elapsed, s.aw)
  | (.panicked, s) => (.panicked, s.metrics, s.aw)

/-- The three instrumentation regimes. -/
inductive Regime where
  | display
  | audio
  | standard
  deriving DecidableEq, Repr

/-- The regime the middleware's conditionals select for a normalized path: the
standard branch is taken when `isWebsocket` is false, the display branch when
the path ends in `websockify`, the audio branch otherwise. -/
def regime (path : String) : Regime :=
  if !isWebsocket path then .standard
  else if HasSuffix path "websockify" then .display
  else .audio

/-! ## Vocabulary of the statements -/

/-- The two kinds of streaming channel. -/
inductive ChannelKind where
  | display
  | audio
  deriving DecidableEq, Repr

/-- The path suffix that selects a channel kind. -/
def ChannelKind.suffix : ChannelKind → String
  | .display => "websockify"
  | .audio => "wsaudio"

/-- The other channel kind. -/
def ChannelKind.other : ChannelKind → ChannelKind
  | .display => .audio
  | .audio => .display

/-- The active-stream gauge of a channel kind. -/
def Metrics.activeStreams (m : Metrics) : ChannelKind → Int
  | .display => m.activeDisplayStreams
  | .audio => m.activeAudioStreams

/-- The received-bytes counter vector of a channel kind. -/
def Metrics.bytesReceived (m : Metrics) : ChannelKind → String → String → Nat
  | .display => m.displayBytesReceivedTotal
  | .audio => m.audioBytesReceivedTotal

/-- The sent-bytes counter vector of a channel kind. -/
def Metrics.bytesSent (m : Metrics) : ChannelKind → String → String → Nat
  | .display => m.displayBytesSentTotal
  | .audio => m.audioBytesSentTotal

/-- The flag of a watcher that stands for a channel kind. -/
def websocketWatcher.hasKind (w : websocketWatcher) : ChannelKind → Bool
  | .display => w.isDisplay
  | .audio => w.isAudio

/-- Whether a Go call panicked. -/
def GoResult.isPanic {α : Type} : GoResult α → Bool
  | .ret _ => false
  | .panicked => true

/-- The value a Go call returned, if it returned. -/
def GoResult.value? {α : Type} : GoResult α → Option α
  | .ret a => some a
  | .panicked => none

/-- The interceptor after a sequence of `WriteHeader` calls with the given codes. -/
def apiResponseWriter.WriteHeaders (a : apiResponseWriter) (codes : List Int) : apiResponseWriter :=
  codes.foldl apiResponseWriter.WriteHeader a

/-- The code of the last `WriteHeader` call the handler made, if it made one. -/
def lastWritten : List HandlerOp → Option Int
  | [] => none
  | op :: ops =>
    match lastWritten ops with
    | some c => some c
    | none =>
      match op with
      | .writeHeader c => some c
      | _ => none

/-- Whether the handler made a `Hijack` call for which the wrapped writer
returned a nil error. -/
def upgraded : List HandlerOp → Bool
  | [] => false
  | .hijack _ none :: _ => true
  | _ :: ops => upgraded ops

/-- The recorded status after a handler step that returns, from the recorded
status `st` before it. -/
def stepStatus (st : Int) : HandlerOp → Int
  | .writeHeader c => c
  | .hijack _ err => if err = none ∧ st = StatusOK then StatusSwitchingProtocols else st
  | _ => st

/-- The registry while the handler runs: after its first `n` steps. -/
def duringRequest (next : List HandlerOp) (n : Nat) (m : Metrics) (w : ResponseWriter)
    (r : Request) : Metrics :=
  (ServeHTTP (next.take n) (preRequest m w r)).2.metrics

/-- What no handler step changes, relative to the state `s0` in which the
handler was started: the flags and labels of the interceptor and of the
connection it handed out, the capability of the wrapped writer, both gauges,
the histogram, the request counter, and the byte counters of a kind whose flag
is not set. -/
structure Frame (s0 s : HandlerState) : Prop where
  isAudio : s.aw.isAudio = s0.aw.isAudio
  isDisplay : s.aw.isDisplay = s0.aw.isDisplay
  clientAddr : s.aw.clientAddr = s0.aw.clientAddr
  desktopName : s.aw.desktopName = s0.aw.desktopName
  isHijacker : s.aw.ResponseWriter.isHijacker = s0.aw.ResponseWriter.isHijacker
  conn : ∀ w, s.conn = some w →
    w.isAudio = s0.aw.isAudio ∧ w.isDisplay = s0.aw.isDisplay ∧
      w.clientAddr = s0.aw.clientAddr ∧ w.desktopName = s0.aw.desktopName
  activeDisplayStreams : s.metrics.activeDisplayStreams = s0.metrics.activeDisplayStreams
  activeAudioStreams : s.metrics.activeAudioStreams = s0.metrics.activeAudioStreams
  requestDuration : s.metrics.requestDuration = s0.metrics.requestDuration
  requestsTotal : s.metrics.requestsTotal = s0.metrics.requestsTotal
  display : s0.aw.isDisplay = false →
    s.metrics.displayBytesSentTotal = s0.metrics.displayBytesSentTotal ∧
      s.metrics.displayBytesReceivedTotal = s0.metrics.displayBytesReceivedTotal
  audio : s0.aw.isAudio = false →
    s.metrics.audioBytesSentTotal = s0.metrics.audioBytesSentTotal ∧
      s.metrics.audioBytesReceivedTotal = s0.metrics.audioBytesReceivedTotal

/-! ## Sample inputs -/

/-- A writer that can be hijacked and has received no header yet. -/
def sampleWriter : ResponseWriter :=
  { isHijacker := true, headerCodes := [] }

/-- A writer without the `http.Hijacker` capability. -/
def plainWriter : ResponseWriter :=
  { isHijacker := false, headerCodes := [] }

/-- A display request from an IPv4 peer. -/
def displayRequest : Request :=
  { gorillaPath := "/desktop/foo/websockify", Method := "GET"
    RemoteAddr := "10.0.0.5:51000", namespacedName := "default/foo" }

/-- An audio request from an IPv4 peer. -/
def audioRequest : Request :=
  { gorillaPath := "/desktop/foo/wsaudio", Method := "GET"
    RemoteAddr := "10.0.0.5:51000", namespacedName := "default/foo" }

/-- A display request from an IPv6 peer. -/
def displayRequestV6 : Request :=
  { gorillaPath := "/desktop/foo/websockify", Method := "GET"
    RemoteAddr := "[::1]:51000", namespacedName := "default/foo" }

/-- A standard request. -/
def apiRequest : Request :=
  { gorillaPath := "/api/foo", Method := "GET"
    RemoteAddr := "10.0.0.5:51000", namespacedName := "" }

/-- A display watcher as `Hijack` builds it for `displayRequest`. -/
def displayWatcher : websocketWatcher :=
  { Conn := some 1, rsize := 0, wsize := 0, isAudio := false, isDisplay := true
    clientAddr := "10.0.0.5", desktopName := "default/foo" }

/-- 1,024 bytes in, read in two chunks, and 2,048 bytes out. -/
def sampleCalls : List ConnCall :=
  [.read 4096 512 none, .write 2048 2048 none, .read 4096 512 none]

/-! ## Theorems -/

/-! ### The byte-counting connection -/

theorem Read_fst (w : websocketWatcher) (m : Metrics) (b size : Nat) (err : Option Error) :
    (w.Read m b size err).1 = { w with rsize := w.rsize + size } := rfl

theorem Write_fst (w : websocketWatcher) (m : Metrics) (b size : Nat) (err : Option Error) :
    (w.Write m b size err).1 = { w with wsize := w.wsize + size } := rfl

theorem Read_result (w : websocketWatcher) (m : Metrics) (b size : Nat) (err : Option Error) :
    (w.Read m b size err).2.2 = (size, err) := rfl

theorem Write_result (w : websocketWatcher) (m : Metrics) (b size : Nat) (err : Option Error) :
    (w.Write m b size err).2.2 = (size, err) := rfl

/-- The registry after `Read`, field by field. -/
theorem Read_metrics (w : websocketWatcher) (m : Metrics) (b size : Nat) (err : Option Error) :
    (w.Read m b size err).2.1 =
      { m with
        displayBytesReceivedTotal :=
          if w.isDisplay then addAt m.displayBytesReceivedTotal w.desktopName w.clientAddr size
          else m.displayBytesReceivedTotal
        audioBytesReceivedTotal :=
          if w.isAudio then addAt m.audioBytesReceivedTotal w.desktopName w.clientAddr size
          else m.audioBytesReceivedTotal } := by
  unfold websocketWatcher.Read
  cases hd : w.isDisplay <;> cases ha : w.isAudio <;> simp [hd, ha]

/-- The registry after `Write`, field by field. -/
theorem Write_metrics (w : websocketWatcher) (m : Metrics) (b size : Nat) (err : Option Error) :
    (w.Write m b size err).2.1 =
      { m with
        displayBytesSentTotal :=
          if w.isDisplay then addAt m.displayBytesSentTotal w.desktopName w.clientAddr size
          else m.displayBytesSentTotal
        audioBytesSentTotal :=
          if w.isAudio then addAt m.audioBytesSentTotal w.desktopName w.clientAddr size
          else m.audioBytesSentTotal } := by
  unfold websocketWatcher.Write
  cases hd : w.isDisplay <;> cases ha : w.isAudio <;> simp [hd, ha]

theorem addAt_self (vec : String → String → Nat) (d c : String) (v : Nat) :
    addAt vec d c v d c = vec d c + v := by
  simp [addAt]

theorem call_labels (w : websocketWatcher) (m : Metrics) (c : ConnCall) :
    (w.call m c).1.isDisplay = w.isDisplay ∧ (w.call m c).1.isAudio = w.isAudio ∧
      (w.call m c).1.desktopName = w.desktopName ∧ (w.call m c).1.clientAddr = w.clientAddr := by
  cases c <;> exact ⟨rfl, rfl, rfl, rfl⟩

theorem call_hasKind (w : websocketWatcher) (m : Metrics) (c : ConnCall) (k : ChannelKind) :
    (w.call m c).1.hasKind k = w.hasKind k := by
  cases c <;> cases k <;> rfl

/-- Effect of one call on the two counters of the watcher's kind, at its labels. -/
theorem call_counters (w : websocketWatcher) (m : Metrics) (c : ConnCall) (k : ChannelKind)
    (hk : w.hasKind k = true) :
    (w.call m c).2.bytesReceived k w.desktopName w.clientAddr =
        m.bytesReceived k w.desktopName w.clientAddr + readTotal [c] ∧
      (w.call m c).2.bytesSent k w.desktopName w.clientAddr =
        m.bytesSent k w.desktopName w.clientAddr + writeTotal [c] := by
  cases k <;> cases c <;>
    simp [websocketWatcher.hasKind] at hk <;>
    simp [websocketWatcher.call, Read_metrics, Write_metrics, Metrics.bytesReceived,
      Metrics.bytesSent, hk, addAt_self, readTotal, writeTotal]

/-- C1. For a byte-counting stream of channel kind `k` and any finite sequence of
`Read` and `Write` calls on it, the received-bytes counter of kind `k` at the
stream's labels grows by exactly the sum of the byte counts the wrapped
connection returned from the reads, and the sent-bytes counter by the sum
returned from the writes; buffer lengths and chunking play no part. -/
theorem websocketWatcher_counts_returned_bytes (w : websocketWatcher) (m : Metrics)
    (k : ChannelKind) (cs : List ConnCall) (hk : w.hasKind k = true) :
    (w.calls m cs).2.bytesReceived k w.desktopName w.clientAddr =
        m.bytesReceived k w.desktopName w.clientAddr + readTotal cs ∧
      (w.calls m cs).2.bytesSent k w.desktopName w.clientAddr =
        m.bytesSent k w.desktopName w.clientAddr + writeTotal cs := by
  induction cs generalizing w m with
  | nil => simp [websocketWatcher.calls, readTotal, writeTotal]
  | cons c cs ih =>
    obtain ⟨_, _, hd, hc⟩ := call_labels w m c
    have h1 := call_counters w m c k hk
    have h2 := ih (w.call m c).1 (w.call m c).2 (by rw [call_hasKind]; exact hk)
    rw [hd, hc] at h2
    have hr : readTotal (c :: cs) = readTotal [c] + readTotal cs := by
      cases c <;> simp [readTotal]
    have hw : writeTotal (c :: cs) = writeTotal [c] + writeTotal cs := by
      cases c <;> simp [writeTotal]
    simp only [websocketWatcher.calls]
    rw [h2.1, h2.2, h1.1, h1.2, hr, hw]
    exact ⟨by ring, by ring⟩

/-- C1 at the sample traffic: 1,024 bytes in and 2,048 bytes out. -/
theorem websocketWatcher_counts_returned_bytes_witness :
    displayWatcher.hasKind .display = true ∧
      ((displayWatcher.calls Metrics.zero sampleCalls).2.bytesReceived .display
          displayWatcher.desktopName displayWatcher.clientAddr =
          Metrics.zero.bytesReceived .display displayWatcher.desktopName
            displayWatcher.clientAddr + readTotal sampleCalls ∧
        (displayWatcher.calls Metrics.zero sampleCalls).2.bytesSent .display
          displayWatcher.desktopName displayWatcher.clientAddr =
          Metrics.zero.bytesSent .display displayWatcher.desktopName
            displayWatcher.clientAddr + writeTotal sampleCalls) ∧
      readTotal sampleCalls = 1024 ∧ writeTotal sampleCalls = 2048 :=
  ⟨by decide,
    websocketWatcher_counts_returned_bytes displayWatcher Metrics.zero .display sampleCalls
      (by decide),
    by decide, by decide⟩

/-- C9, counterexample.  On the sample display watcher a `Read` whose wrapped call
returns 5 bytes together with an error still changes the received-bytes
counter: it is not left as it was. -/
theorem read_error_still_counted :
    (displayWatcher.Read Metrics.zero 4096 5 (some "connection reset")).2.2 =
        (5, some "connection reset") ∧
      (displayWatcher.Read Metrics.zero 4096 5 (some "connection reset")).2.1.displayBytesReceivedTotal
          "default/foo" "10.0.0.5" ≠
        Metrics.zero.displayBytesReceivedTotal "default/foo" "10.0.0.5" := by
  decide

/-- C9, amended.  Every `Read` and `Write` hands its caller exactly the pair
`(size, err)` of the wrapped call and adds `size` to the counter of each kind
whose flag is set on the watcher, at the watcher's labels, whether `err` is nil
or not; `Read` leaves the sent-bytes counters alone and `Write` the
received-bytes counters. -/
theorem websocketWatcher_counts_regardless_of_error (w : websocketWatcher) (m : Metrics)
    (b size : Nat) (err : Option Error) (k : ChannelKind) :
    ((w.Read m b size err).2.2 = (size, err) ∧
      (w.Read m b size err).2.1.bytesReceived k w.desktopName w.clientAddr =
        m.bytesReceived k w.desktopName w.clientAddr + (if w.hasKind k then size else 0) ∧
      (w.Read m b size err).2.1.bytesSent k = m.bytesSent k) ∧
    ((w.Write m b size err).2.2 = (size, err) ∧
      (w.Write m b size err).2.1.bytesSent k w.desktopName w.clientAddr =
        m.bytesSent k w.desktopName w.clientAddr + (if w.hasKind k then size else 0) ∧
      (w.Write m b size err).2.1.bytesReceived k = m.bytesReceived k) := by
  refine ⟨⟨rfl, ?_, ?_⟩, ⟨rfl, ?_, ?_⟩⟩
  · cases k <;> simp only [Read_metrics, Metrics.bytesReceived, websocketWatcher.hasKind] <;>
      split_ifs <;> simp [addAt_self]
  · cases k <;> simp [Read_metrics, Metrics.bytesSent]
  · cases k <;> simp only [Write_metrics, Metrics.bytesSent, websocketWatcher.hasKind] <;>
      split_ifs <;> simp [addAt_self]
  · cases k <;> simp [Write_metrics, Metrics.bytesReceived]

/-! ### The response interceptor -/

theorem WriteHeaders_append (a : apiResponseWriter) (cs : List Int) (c : Int) :
    a.WriteHeaders (cs ++ [c]) = (a.WriteHeaders cs).WriteHeader c := by
  simp [apiResponseWriter.WriteHeaders, List.foldl_append]

theorem WriteHeaders_headerCodes (a : apiResponseWriter) (cs : List Int) :
    (a.WriteHeaders cs).ResponseWriter.headerCodes = a.ResponseWriter.headerCodes ++ cs := by
  induction cs generalizing a with
  | nil => simp [apiResponseWriter.WriteHeaders]
  | cons c cs ih =>
    have h := ih (a.WriteHeader c)
    simp only [apiResponseWriter.WriteHeaders, List.foldl_cons] at h ⊢
    rw [h]
    simp [apiResponseWriter.WriteHeader]

/-- C5, counterexample.  After `WriteHeader(404)` and then `WriteHeader(500)` on a
fresh interceptor, `Status()` is 500, not the first code 404. -/
theorem second_WriteHeader_overwrites :
    ((apiResponseWriter.wrap sampleWriter).WriteHeaders [404, 500]).Status = 500 ∧
      ((apiResponseWriter.wrap sampleWriter).WriteHeaders [404, 500]).Status ≠ 404 := by
  decide

/-- C5, amended.  `WriteHeader` records the status on every call: after one or more
calls with codes `c1, ..., cn` on a fresh interceptor, every call has been
forwarded to the wrapped writer with its own code, in order, and `Status()`
returns the last code `cn`. -/
theorem WriteHeader_records_last (w : ResponseWriter) (cs : List Int) (c : Int) :
    ((apiResponseWriter.wrap w).WriteHeaders (cs ++ [c])).ResponseWriter.headerCodes =
        w.headerCodes ++ (cs ++ [c]) ∧
      ((apiResponseWriter.wrap w).WriteHeaders (cs ++ [c])).Status = c := by
  refine ⟨WriteHeaders_headerCodes _ _, ?_⟩
  rw [WriteHeaders_append]
  rfl

/-- The `Hijack` rule for the recorded status, for a wrapped writer that is an
`http.Hijacker`. -/
theorem Hijack_of_isHijacker (a : apiResponseWriter) (conn : Option Nat) (err : Option Error)
    (h : a.ResponseWriter.isHijacker = true) :
    a.Hijack conn err =
      .ret (if err = none ∧ a.status = StatusOK then
              { a with status := StatusSwitchingProtocols } else a,
            { Conn := conn, rsize := 0, wsize := 0
              isAudio := a.isAudio, isDisplay := a.isDisplay
              clientAddr := a.clientAddr, desktopName := a.desktopName },
            err) := by
  simp [apiResponseWriter.Hijack, h]

/-- C6, the failing input.  The handler writes status 200 itself and then
hijacks successfully: the recorded status does not remain 200, it becomes 101. -/
theorem Hijack_after_explicit_200 :
    (((apiResponseWriter.wrap sampleWriter).WriteHeader 200).Hijack (some 1) none).value?.map
        (fun res => res.1.Status) = some 101 := by
  decide

/-- C7, counterexample.  On a wrapped writer without the `http.Hijacker`
capability `Hijack` does not return at all, so no error reaches the handler:
the call panics. -/
theorem Hijack_without_capability_panics :
    ((apiResponseWriter.wrap plainWriter).Hijack none none).isPanic = true ∧
      ((apiResponseWriter.wrap plainWriter).Hijack none none).value?.isNone = true := by
  decide

/-- C7, amended.  When the wrapped writer is no `http.Hijacker`, `Hijack` panics
at the unchecked type assertion: nothing is returned to the handler, and a
handler that makes the call is left at that point with the interceptor, its
recorded status included, and the registry as they were. -/
theorem Hijack_panics_without_capability (s : HandlerState) (conn : Option Nat)
    (err : Option Error) (rest : List HandlerOp)
    (h : s.aw.ResponseWriter.isHijacker = false) :
    (s.aw.Hijack conn err).isPanic = true ∧
      ServeHTTP (.hijack conn err :: rest) s = (.panicked, s) := by
  have hp : s.aw.Hijack conn err = .panicked := by simp [apiResponseWriter.Hijack, h]
  refine ⟨by rw [hp]; rfl, ?_⟩
  simp [ServeHTTP, HandlerState.step, hp]

/-- C7 on a streaming request served through a writer that cannot be hijacked. -/
theorem Hijack_panics_without_capability_witness :
    (preRequest Metrics.zero plainWriter displayRequest).aw.ResponseWriter.isHijacker = false ∧
      (((preRequest Metrics.zero plainWriter displayRequest).aw.Hijack none none).isPanic = true ∧
        ServeHTTP [.hijack none none, .writeHeader 500]
            (preRequest Metrics.zero plainWriter displayRequest) =
          (.panicked, preRequest Metrics.zero plainWriter displayRequest)) :=
  ⟨by decide,
    Hijack_panics_without_capability (preRequest Metrics.zero plainWriter displayRequest)
      none none [.writeHeader 500] (by decide)⟩

/-! ### The client label -/

/-- For a host without a colon, the text in front of the first colon of
`host:port` is the host. -/
theorem SplitFirst_host_port (host port : String) (h : ':' ∉ host.data) :
    SplitFirst (host ++ ":" ++ port) ':' = host := by
  have key : ∀ (l r : List Char), ':' ∉ l →
      (l ++ ':' :: r).takeWhile (fun c => c != ':') = l := by
    intro l r hl
    induction l with
    | nil => simp
    | cons x xs ih =>
      have hx : x ≠ ':' := fun e => hl (by simp [e])
      have hxs : ':' ∉ xs := fun e => hl (by simp [e])
      have hb : (x != ':') = true := by simp [hx]
      rw [List.cons_append, List.takeWhile_cons, hb]
      simp [ih hxs]
  show String.mk _ = host
  have : (host ++ ":" ++ port).data = host.data ++ ':' :: port.data := by
    simp [String.data_append]
  rw [this, key _ _ h]

/-- C10, the failing input.  For the IPv6 remote address `[::1]:51000` the client
label stored in the interceptor is `[`, not the host `::1`, and the bytes of a
stream hijacked on that request are counted under the label `[`. -/
theorem clientAddr_of_IPv6_remote :
    (preRequest Metrics.zero sampleWriter displayRequestV6).aw.clientAddr = "[" ∧
      (prometheusMiddleware [.hijack (some 1) none, .read 4096 10 none] 0 Metrics.zero
          sampleWriter displayRequestV6).2.1.displayBytesReceivedTotal "default/foo" "[" = 10 ∧
      (prometheusMiddleware [.hijack (some 1) none, .read 4096 10 none] 0 Metrics.zero
          sampleWriter displayRequestV6).2.1.displayBytesReceivedTotal "default/foo" "::1" = 0 := by
  decide

/-! ### The handler run -/

theorem Frame.refl (s0 : HandlerState) (h : s0.conn = none) : Frame s0 s0 where
  isAudio := rfl
  isDisplay := rfl
  clientAddr := rfl
  desktopName := rfl
  isHijacker := rfl
  conn := by intro w hw; rw [h] at hw; cases hw
  activeDisplayStreams := rfl
  activeAudioStreams := rfl
  requestDuration := rfl
  requestsTotal := rfl
  display := fun _ => ⟨rfl, rfl⟩
  audio := fun _ => ⟨rfl, rfl⟩

/-- A handler step that returns keeps the frame. -/
theorem Frame.step {s0 s s1 : HandlerState} (op : HandlerOp) (f : Frame s0 s)
    (h : s.step op = .ret s1) : Frame s0 s1 := by
  cases op with
  | writeHeader c =>
    simp only [HandlerState.step, GoResult.ret.injEq] at h
    subst h
    exact { f with }
  | hijack conn err =>
    by_cases hh : s.aw.ResponseWriter.isHijacker = true
    · simp only [HandlerState.step, Hijack_of_isHijacker _ _ _ hh, GoResult.ret.injEq] at h
      subst h
      refine { f with isAudio := ?_, isDisplay := ?_, clientAddr := ?_, desktopName := ?_,
                      isHijacker := ?_, conn := ?_ }
      · show (if _ then _ else _ : apiResponseWriter).isAudio = _
        split_ifs <;> exact f.isAudio
      · show (if _ then _ else _ : apiResponseWriter).isDisplay = _
        split_ifs <;> exact f.isDisplay
      · show (if _ then _ else _ : apiResponseWriter).clientAddr = _
        split_ifs <;> exact f.clientAddr
      · show (if _ then _ else _ : apiResponseWriter).desktopName = _
        split_ifs <;> exact f.desktopName
      · show (if _ then _ else _ : apiResponseWriter).ResponseWriter.isHijacker = _
        split_ifs <;> exact f.isHijacker
      · intro w hw
        simp only [Option.some.injEq] at hw
        subst hw
        exact ⟨f.isAudio, f.isDisplay, f.clientAddr, f.desktopName⟩
    · simp [HandlerState.step, apiResponseWriter.Hijack, hh] at h
  | read b size err =>
    cases hc : s.conn with
    | none => simp [HandlerState.step, hc] at h
    | some w =>
      obtain ⟨wa, wd, wc, wn⟩ := f.conn w hc
      by_cases hn : w.Conn.isSome = true
      · simp only [HandlerState.step, hc, hn, if_true, GoResult.ret.injEq] at h
        subst h
        refine { f with conn := ?_, display := ?_, audio := ?_, activeDisplayStreams := ?_,
                        activeAudioStreams := ?_, requestDuration := ?_, requestsTotal := ?_ }
        · intro w1 hw1
          simp only [Option.some.injEq] at hw1
          subst hw1
          exact ⟨wa, wd, wc, wn⟩
        · rw [Read_metrics]; exact f.activeDisplayStreams
        · rw [Read_metrics]; exact f.activeAudioStreams
        · rw [Read_metrics]; exact f.requestDuration
        · rw [Read_metrics]; exact f.requestsTotal
        · intro hd
          simp only [Read_metrics, wd, hd]
          exact f.display hd
        · intro ha
          simp only [Read_metrics, wa, ha]
          exact f.audio ha
      · simp [HandlerState.step, hc, hn] at h
  | write b size err =>
    cases hc : s.conn with
    | none => simp [HandlerState.step, hc] at h
    | some w =>
      obtain ⟨wa, wd, wc, wn⟩ := f.conn w hc
      by_cases hn : w.Conn.isSome = true
      · simp only [HandlerState.step, hc, hn, if_true, GoResult.ret.injEq] at h
        subst h
        refine { f with conn := ?_, display := ?_, audio := ?_, activeDisplayStreams := ?_,
                        activeAudioStreams := ?_, requestDuration := ?_, requestsTotal := ?_ }
        · intro w1 hw1
          simp only [Option.some.injEq] at hw1
          subst hw1
          exact ⟨wa, wd, wc, wn⟩
        · rw [Write_metrics]; exact f.activeDisplayStreams
        · rw [Write_metrics]; exact f.activeAudioStreams
        · rw [Write_metrics]; exact f.requestDuration
        · rw [Write_metrics]; exact f.requestsTotal
        · intro hd
          simp only [Write_metrics, wd, hd]
          exact f.display hd
        · intro ha
          simp only [Write_metrics, wa, ha]
          exact f.audio ha
      · simp [HandlerState.step, hc, hn] at h
  | panic => simp [HandlerState.step] at h

/-- The state in which a handler run ends, by return or by panic, is in the frame
of the state it started from. -/
theorem Frame.ServeHTTP {s0 s : HandlerState} (ops : List HandlerOp) (f : Frame s0 s) :
    Frame s0 (ServeHTTP ops s).2 := by
  induction ops generalizing s with
  | nil => exact f
  | cons op ops ih =>
    cases hs : s.step op with
    | ret s1 =>
      simp only [Kvdi.ServeHTTP, hs]
      exact ih (f.step op hs)
    | panicked =>
      simp only [Kvdi.ServeHTTP, hs]
      exact f

theorem preRequest_conn (m : Metrics) (w : ResponseWriter) (r : Request) :
    (preRequest m w r).conn = none := by
  unfold preRequest
  simp only
  split_ifs <;> rfl

/-- Every state of a handler run is in the frame of the state `preRequest` built. -/
theorem ServeHTTP_frame (ops : List HandlerOp) (m : Metrics) (w : ResponseWriter)
    (r : Request) :
    Frame (preRequest m w r) (ServeHTTP ops (preRequest m w r)).2 :=
  Frame.ServeHTTP ops (Frame.refl _ (preRequest_conn m w r))

/-! ### Classification -/

/-- No path ends both in `websockify` and in `wsaudio`. -/
theorem suffixes_exclusive (p : String) (h : HasSuffix p "websockify" = true) :
    HasSuffix p "wsaudio" = false := by
  have e1 : "websockify".data.reverse = ['y', 'f', 'i', 'k', 'c', 'o', 's', 'b', 'e', 'w'] := by
    decide
  have e2 : "wsaudio".data.reverse = ['o', 'i', 'd', 'u', 'a', 's', 'w'] := by decide
  unfold HasSuffix List.isSuffixOf at *
  rw [e1] at h
  rw [e2]
  cases hl : p.data.reverse with
  | nil => rfl
  | cons c cs =>
    rw [hl] at h
    simp only [List.isPrefixOf, Bool.and_eq_true, beq_iff_eq] at h
    have hc : c = 'y' := h.1.symm
    subst hc
    simp [List.isPrefixOf]

theorem isWebsocket_of_suffix (p : String) (k : ChannelKind)
    (h : HasSuffix p k.suffix = true) : isWebsocket p = true := by
  cases k <;> simp only [ChannelKind.suffix] at h <;> simp [isWebsocket, h]

theorem preRequest_stream (m : Metrics) (w : ResponseWriter) (r : Request) (k : ChannelKind)
    (h : HasSuffix r.path k.suffix = true) :
    (preRequest m w r).metrics.activeStreams k = m.activeStreams k + 1 ∧
      (preRequest m w r).metrics.activeStreams k.other = m.activeStreams k.other := by
  have hw := isWebsocket_of_suffix _ k h
  cases k with
  | display =>
    simp only [ChannelKind.suffix] at h
    simp [preRequest, hw, h, Metrics.activeStreams, ChannelKind.other]
  | audio =>
    simp only [ChannelKind.suffix] at h
    have h2 : HasSuffix r.path "websockify" = false := by
      cases h3 : HasSuffix r.path "websockify" with
      | false => rfl
      | true => rw [suffixes_exclusive _ h3] at h; cases h
    simp [preRequest, hw, h, h2, Metrics.activeStreams, ChannelKind.other]

theorem postRequest_stream (m : Metrics) (aw : apiResponseWriter) (r : Request) (elapsed : Nat)
    (k : ChannelKind) (h : HasSuffix r.path k.suffix = true) :
    (postRequest m aw r elapsed).activeStreams k = m.activeStreams k - 1 ∧
      (postRequest m aw r elapsed).activeStreams k.other = m.activeStreams k.other := by
  have hw := isWebsocket_of_suffix _ k h
  cases k with
  | display =>
    simp only [ChannelKind.suffix] at h
    simp [postRequest, hw, h, Metrics.activeStreams, ChannelKind.other]
  | audio =>
    simp only [ChannelKind.suffix] at h
    have h2 : HasSuffix r.path "websockify" = false := by
      cases h3 : HasSuffix r.path "websockify" with
      | false => rfl
      | true => rw [suffixes_exclusive _ h3] at h; cases h
    simp [postRequest, hw, h, h2, Metrics.activeStreams, ChannelKind.other]

theorem Frame.activeStreams {s0 s : HandlerState} (f : Frame s0 s) (k : ChannelKind) :
    s.metrics.activeStreams k = s0.metrics.activeStreams k := by
  cases k
  · exact f.activeDisplayStreams
  · exact f.activeAudioStreams

/-! ### The middleware -/

theorem prometheusMiddleware_outcome (next : List HandlerOp) (elapsed : Nat) (m : Metrics)
    (w : ResponseWriter) (r : Request) :
    (prometheusMiddleware next elapsed m w r).1 = (ServeHTTP next (preRequest m w r)).1 := by
  unfold prometheusMiddleware
  rcases ServeHTTP next (preRequest m w r) with ⟨o, s⟩
  cases o <;> rfl

theorem prometheusMiddleware_returned (next : List HandlerOp) (elapsed : Nat) (m : Metrics)
    (w : ResponseWriter) (r : Request)
    (h : (prometheusMiddleware next elapsed m w r).1 = .returned) :
    (prometheusMiddleware next elapsed m w r).2 =
      (postRequest (ServeHTTP next (preRequest m w r)).2.metrics
          (ServeHTTP next (preRequest m w r)).2.aw r elapsed,
        (ServeHTTP next (preRequest m w r)).2.aw) := by
  unfold prometheusMiddleware at h ⊢
  generalize ServeHTTP next (preRequest m w r) = z at h ⊢
  rcases z with ⟨o, s⟩
  cases o
  · rfl
  · simp at h

theorem prometheusMiddleware_panicked (next : List HandlerOp) (elapsed : Nat) (m : Metrics)
    (w : ResponseWriter) (r : Request)
    (h : (prometheusMiddleware next elapsed m w r).1 = .panicked) :
    (prometheusMiddleware next elapsed m w r).2 =
      ((ServeHTTP next (preRequest m w r)).2.metrics,
        (ServeHTTP next (preRequest m w r)).2.aw) := by
  unfold prometheusMiddleware at h ⊢
  generalize ServeHTTP next (preRequest m w r) = z at h ⊢
  rcases z with ⟨o, s⟩
  cases o
  · simp at h
  · rfl

/-- C3. For a streaming request of channel kind `k` whose handler returns, whatever
the handler did with the interceptor and the connection: at every point of the
handler run the gauge of kind `k` is one above its value before the request,
after the middleware has returned it is back at that value, and the gauge of
the other kind has its old value throughout. -/
theorem stream_gauge_balanced (next : List HandlerOp) (elapsed : Nat) (m : Metrics)
    (w : ResponseWriter) (r : Request) (k : ChannelKind)
    (hk : HasSuffix r.path k.suffix = true)
    (hret : (prometheusMiddleware next elapsed m w r).1 = .returned) :
    (∀ n, (duringRequest next n m w r).activeStreams k = m.activeStreams k + 1 ∧
        (duringRequest next n m w r).activeStreams k.other = m.activeStreams k.other) ∧
      (prometheusMiddleware next elapsed m w r).2.1.activeStreams k = m.activeStreams k ∧
      (prometheusMiddleware next elapsed m w r).2.1.activeStreams k.other =
        m.activeStreams k.other := by
  obtain ⟨p1, p2⟩ := preRequest_stream m w r k hk
  refine ⟨fun n => ?_, ?_, ?_⟩
  · have f := ServeHTTP_frame (next.take n) m w r
    exact ⟨by rw [duringRequest, f.activeStreams, p1], by rw [duringRequest, f.activeStreams, p2]⟩
  · have f := ServeHTTP_frame next m w r
    rw [prometheusMiddleware_returned _ _ _ _ _ hret]
    rw [(postRequest_stream _ _ r elapsed k hk).1, f.activeStreams, p1]
    ring
  · have f := ServeHTTP_frame next m w r
    rw [prometheusMiddleware_returned _ _ _ _ _ hret]
    rw [(postRequest_stream _ _ r elapsed k hk).2, f.activeStreams, p2]

/-- C3 on a display request whose handler upgrades, transfers bytes and meets a
read error. -/
theorem stream_gauge_balanced_witness :
    HasSuffix displayRequest.path ChannelKind.display.suffix = true ∧
      (prometheusMiddleware
          [.hijack (some 1) none, .read 4096 512 none, .write 2048 2048 none,
            .read 4096 0 (some "EOF")] 0 Metrics.zero sampleWriter displayRequest).1 =
        .returned ∧
      ((∀ n, (duringRequest
              [.hijack (some 1) none, .read 4096 512 none, .write 2048 2048 none,
                .read 4096 0 (some "EOF")] n Metrics.zero sampleWriter
              displayRequest).activeStreams .display =
            Metrics.zero.activeStreams .display + 1 ∧
          (duringRequest
              [.hijack (some 1) none, .read 4096 512 none, .write 2048 2048 none,
                .read 4096 0 (some "EOF")] n Metrics.zero sampleWriter
              displayRequest).activeStreams ChannelKind.display.other =
            Metrics.zero.activeStreams ChannelKind.display.other) ∧
        (prometheusMiddleware
            [.hijack (some 1) none, .read 4096 512 none, .write 2048 2048 none,
              .read 4096 0 (some "EOF")] 0 Metrics.zero sampleWriter
            displayRequest).2.1.activeStreams .display =
          Metrics.zero.activeStreams .display ∧
        (prometheusMiddleware
            [.hijack (some 1) none, .read 4096 512 none, .write 2048 2048 none,
              .read 4096 0 (some "EOF")] 0 Metrics.zero sampleWriter
            displayRequest).2.1.activeStreams ChannelKind.display.other =
          Metrics.zero.activeStreams ChannelKind.display.other) :=
  ⟨by decide, by decide,
    stream_gauge_balanced _ 0 Metrics.zero sampleWriter displayRequest .display
      (by decide) (by decide)⟩

/-- C4, the failing input.  A display request whose handler panics, of its own
accord or inside `Hijack` on a writer that cannot be hijacked: `Inc()` has run,
the `Dec()` placed after `next.ServeHTTP(aw, r)` is skipped, and the display
gauge stays at 1 with no stream open, not at its value 0 from before the
request. -/
theorem gauge_leaks_on_panic :
    ((prometheusMiddleware [.panic] 0 Metrics.zero sampleWriter displayRequest).1 = .panicked ∧
      (prometheusMiddleware [.panic] 0 Metrics.zero sampleWriter
          displayRequest).2.1.activeDisplayStreams = 1 ∧
      Metrics.zero.activeDisplayStreams = 0) ∧
    ((prometheusMiddleware [.hijack none none] 0 Metrics.zero plainWriter displayRequest).1 =
        .panicked ∧
      (prometheusMiddleware [.hijack none none] 0 Metrics.zero plainWriter
          displayRequest).2.1.activeDisplayStreams = 1) := by
  decide

/-- The gauges of a streaming request on each exit of the handler, as the code
runs: after a return the gauge of the request's kind is back at its value from
before the request, after a panic of the handler the decrement has not been run
and the gauge is one above that value; the gauge of the other kind keeps its
value on both exits. -/
theorem stream_gauge_by_exit (next : List HandlerOp) (elapsed : Nat) (m : Metrics)
    (w : ResponseWriter) (r : Request) (k : ChannelKind)
    (hk : HasSuffix r.path k.suffix = true) :
    ((prometheusMiddleware next elapsed m w r).1 = .returned →
        (prometheusMiddleware next elapsed m w r).2.1.activeStreams k = m.activeStreams k) ∧
      ((prometheusMiddleware next elapsed m w r).1 = .panicked →
        (prometheusMiddleware next elapsed m w r).2.1.activeStreams k =
          m.activeStreams k + 1) ∧
      (prometheusMiddleware next elapsed m w r).2.1.activeStreams k.other =
        m.activeStreams k.other := by
  obtain ⟨p1, p2⟩ := preRequest_stream m w r k hk
  have f := ServeHTTP_frame next m w r
  refine ⟨fun hret => ?_, fun hp => ?_, ?_⟩
  · rw [prometheusMiddleware_returned _ _ _ _ _ hret]
    rw [(postRequest_stream _ _ r elapsed k hk).1, f.activeStreams, p1]
    ring
  · rw [prometheusMiddleware_panicked _ _ _ _ _ hp]
    rw [f.activeStreams, p1]
  · cases ho : (prometheusMiddleware next elapsed m w r).1 with
    | returned =>
      rw [prometheusMiddleware_returned _ _ _ _ _ ho]
      rw [(postRequest_stream _ _ r elapsed k hk).2, f.activeStreams, p2]
    | panicked =>
      rw [prometheusMiddleware_panicked _ _ _ _ _ ho]
      rw [f.activeStreams, p2]

/-- The gauges of an audio request whose handler panics after upgrading. -/
theorem stream_gauge_by_exit_witness :
    HasSuffix audioRequest.path ChannelKind.audio.suffix = true ∧
      (((prometheusMiddleware [.hijack (some 1) none, .panic] 0 Metrics.zero sampleWriter
            audioRequest).1 = .returned →
          (prometheusMiddleware [.hijack (some 1) none, .panic] 0 Metrics.zero sampleWriter
            audioRequest).2.1.activeStreams .audio = Metrics.zero.activeStreams .audio) ∧
        ((prometheusMiddleware [.hijack (some 1) none, .panic] 0 Metrics.zero sampleWriter
            audioRequest).1 = .panicked →
          (prometheusMiddleware [.hijack (some 1) none, .panic] 0 Metrics.zero sampleWriter
            audioRequest).2.1.activeStreams .audio = Metrics.zero.activeStreams .audio + 1) ∧
        (prometheusMiddleware [.hijack (some 1) none, .panic] 0 Metrics.zero sampleWriter
            audioRequest).2.1.activeStreams ChannelKind.audio.other =
          Metrics.zero.activeStreams ChannelKind.audio.other) ∧
      (prometheusMiddleware [.hijack (some 1) none, .panic] 0 Metrics.zero sampleWriter
          audioRequest).1 = .panicked :=
  ⟨by decide,
    stream_gauge_by_exit [.hijack (some 1) none, .panic] 0 Metrics.zero sampleWriter
      audioRequest .audio (by decide),
    by decide⟩

/-! ### Regimes -/

theorem regime_display_iff (p : String) :
    regime p = .display ↔ HasSuffix p "websockify" = true := by
  unfold regime isWebsocket
  cases h1 : HasSuffix p "websockify" <;> cases h2 : HasSuffix p "wsaudio" <;> simp

theorem regime_audio_iff (p : String) :
    regime p = .audio ↔ HasSuffix p "wsaudio" = true := by
  unfold regime isWebsocket
  cases h1 : HasSuffix p "websockify" <;> cases h2 : HasSuffix p "wsaudio" <;> simp
  rw [suffixes_exclusive p h1] at h2
  cases h2

theorem regime_standard_iff (p : String) :
    regime p = .standard ↔
      (HasSuffix p "websockify" = false ∧ HasSuffix p "wsaudio" = false) := by
  unfold regime isWebsocket
  cases h1 : HasSuffix p "websockify" <;> cases h2 : HasSuffix p "wsaudio" <;> simp

theorem preRequest_display (m : Metrics) (w : ResponseWriter) (r : Request)
    (h : HasSuffix r.path "websockify" = true) :
    preRequest m w r =
      { metrics := { m with activeDisplayStreams := m.activeDisplayStreams + 1 }
        aw := { apiResponseWriter.wrap w with
                clientAddr := SplitFirst r.RemoteAddr ':'
                desktopName := r.namespacedName
                isDisplay := true }
        conn := none } := by
  simp [preRequest, isWebsocket, h]

theorem preRequest_audio (m : Metrics) (w : ResponseWriter) (r : Request)
    (h : HasSuffix r.path "wsaudio" = true) :
    preRequest m w r =
      { metrics := { m with activeAudioStreams := m.activeAudioStreams + 1 }
        aw := { apiResponseWriter.wrap w with
                clientAddr := SplitFirst r.RemoteAddr ':'
                desktopName := r.namespacedName
                isAudio := true }
        conn := none } := by
  have h2 : HasSuffix r.path "websockify" = false := by
    cases h3 : HasSuffix r.path "websockify" with
    | false => rfl
    | true => rw [suffixes_exclusive _ h3] at h; cases h
  simp [preRequest, isWebsocket, h, h2]

theorem preRequest_standard (m : Metrics) (w : ResponseWriter) (r : Request)
    (h1 : HasSuffix r.path "websockify" = false) (h2 : HasSuffix r.path "wsaudio" = false) :
    preRequest m w r = { metrics := m, aw := apiResponseWriter.wrap w, conn := none } := by
  simp [preRequest, isWebsocket, h1, h2]

theorem postRequest_display (m : Metrics) (aw : apiResponseWriter) (r : Request)
    (elapsed : Nat) (h : HasSuffix r.path "websockify" = true) :
    postRequest m aw r elapsed = { m with activeDisplayStreams := m.activeDisplayStreams - 1 } := by
  simp [postRequest, isWebsocket, h]

theorem postRequest_audio (m : Metrics) (aw : apiResponseWriter) (r : Request)
    (elapsed : Nat) (h : HasSuffix r.path "wsaudio" = true) :
    postRequest m aw r elapsed = { m with activeAudioStreams := m.activeAudioStreams - 1 } := by
  have h2 : HasSuffix r.path "websockify" = false := by
    cases h3 : HasSuffix r.path "websockify" with
    | false => rfl
    | true => rw [suffixes_exclusive _ h3] at h; cases h
  simp [postRequest, isWebsocket, h, h2]

theorem postRequest_standard (m : Metrics) (aw : apiResponseWriter) (r : Request)
    (elapsed : Nat)
    (h1 : HasSuffix r.path "websockify" = false) (h2 : HasSuffix r.path "wsaudio" = false) :
    postRequest m aw r elapsed =
      { m with
        requestsTotal := incAt m.requestsTotal r.path (Itoa aw.Status) r.Method
        requestDuration := observeAt m.requestDuration r.path r.Method elapsed } := by
  simp [postRequest, isWebsocket, h1, h2]

/-- The registry the middleware leaves behind is the one the handler left, passed
through `postRequest` when the handler returned. -/
theorem prometheusMiddleware_metrics (next : List HandlerOp) (elapsed : Nat) (m : Metrics)
    (w : ResponseWriter) (r : Request) :
    (prometheusMiddleware next elapsed m w r).2.1 =
        postRequest (ServeHTTP next (preRequest m w r)).2.metrics
          (ServeHTTP next (preRequest m w r)).2.aw r elapsed ∨
      (prometheusMiddleware next elapsed m w r).2.1 =
        (ServeHTTP next (preRequest m w r)).2.metrics := by
  cases ho : (prometheusMiddleware next elapsed m w r).1 with
  | returned => left; rw [prometheusMiddleware_returned _ _ _ _ _ ho]
  | panicked => right; rw [prometheusMiddleware_panicked _ _ _ _ _ ho]

/-- C8. The regime is a function of the suffix of the normalized path, exactly one
of display (the path ends in `websockify`), audio (it ends in `wsaudio`) and
standard (neither), and a request changes only the instruments of its regime,
whatever the handler does and however it ends: a display request leaves the
audio gauge, the audio byte counters, the histogram and the request counter as
they were, an audio request the same with display for audio, and a standard
request leaves both gauges and all four byte counters as they were. -/
theorem regimes_are_disjoint (next : List HandlerOp) (elapsed : Nat) (m : Metrics)
    (w : ResponseWriter) (r : Request) :
    (∀ p : String,
      (regime p = .display ↔ HasSuffix p "websockify" = true) ∧
      (regime p = .audio ↔ HasSuffix p "wsaudio" = true) ∧
      (regime p = .standard ↔
        (HasSuffix p "websockify" = false ∧ HasSuffix p "wsaudio" = false))) ∧
    match regime r.path with
    | .display =>
      (prometheusMiddleware next elapsed m w r).2.1.activeAudioStreams = m.activeAudioStreams ∧
      (prometheusMiddleware next elapsed m w r).2.1.audioBytesSentTotal =
        m.audioBytesSentTotal ∧
      (prometheusMiddleware next elapsed m w r).2.1.audioBytesReceivedTotal =
        m.audioBytesReceivedTotal ∧
      (prometheusMiddleware next elapsed m w r).2.1.requestDuration = m.requestDuration ∧
      (prometheusMiddleware next elapsed m w r).2.1.requestsTotal = m.requestsTotal
    | .audio =>
      (prometheusMiddleware next elapsed m w r).2.1.activeDisplayStreams =
        m.activeDisplayStreams ∧
      (prometheusMiddleware next elapsed m w r).2.1.displayBytesSentTotal =
        m.displayBytesSentTotal ∧
      (prometheusMiddleware next elapsed m w r).2.1.displayBytesReceivedTotal =
        m.displayBytesReceivedTotal ∧
      (prometheusMiddleware next elapsed m w r).2.1.requestDuration = m.requestDuration ∧
      (prometheusMiddleware next elapsed m w r).2.1.requestsTotal = m.requestsTotal
    | .standard =>
      (prometheusMiddleware next elapsed m w r).2.1.activeDisplayStreams =
        m.activeDisplayStreams ∧
      (prometheusMiddleware next elapsed m w r).2.1.activeAudioStreams = m.activeAudioStreams ∧
      (prometheusMiddleware next elapsed m w r).2.1.displayBytesSentTotal =
        m.displayBytesSentTotal ∧
      (prometheusMiddleware next elapsed m w r).2.1.displayBytesReceivedTotal =
        m.displayBytesReceivedTotal ∧
      (prometheusMiddleware next elapsed m w r).2.1.audioBytesSentTotal =
        m.audioBytesSentTotal ∧
      (prometheusMiddleware next elapsed m w r).2.1.audioBytesReceivedTotal =
        m.audioBytesReceivedTotal := by
  refine ⟨fun p => ⟨regime_display_iff p, regime_audio_iff p, regime_standard_iff p⟩, ?_⟩
  have f := ServeHTTP_frame next m w r
  cases hr : regime r.path with
  | display =>
    have h := (regime_display_iff _).1 hr
    have hpre := preRequest_display m w r h
    have fa := f.audio (by rw [hpre]; rfl)
    have q1 : (preRequest m w r).metrics.activeAudioStreams = m.activeAudioStreams := by
      rw [hpre]
    have q2 : (preRequest m w r).metrics.audioBytesSentTotal = m.audioBytesSentTotal := by
      rw [hpre]
    have q3 : (preRequest m w r).metrics.audioBytesReceivedTotal =
        m.audioBytesReceivedTotal := by rw [hpre]
    have q4 : (preRequest m w r).metrics.requestDuration = m.requestDuration := by rw [hpre]
    have q5 : (preRequest m w r).metrics.requestsTotal = m.requestsTotal := by rw [hpre]
    have all := And.intro (f.activeAudioStreams.trans q1) (And.intro (fa.1.trans q2)
      (And.intro (fa.2.trans q3) (And.intro (f.requestDuration.trans q4)
        (f.requestsTotal.trans q5))))
    simp only
    rcases prometheusMiddleware_metrics next elapsed m w r with e | e <;> rw [e]
    · rw [postRequest_display _ _ _ _ h]
      exact all
    · exact all
  | audio =>
    have h := (regime_audio_iff _).1 hr
    have hpre := preRequest_audio m w r h
    have fa := f.display (by rw [hpre]; rfl)
    have q1 : (preRequest m w r).metrics.activeDisplayStreams = m.activeDisplayStreams := by
      rw [hpre]
    have q2 : (preRequest m w r).metrics.displayBytesSentTotal = m.displayBytesSentTotal := by
      rw [hpre]
    have q3 : (preRequest m w r).metrics.displayBytesReceivedTotal =
        m.displayBytesReceivedTotal := by rw [hpre]
    have q4 : (preRequest m w r).metrics.requestDuration = m.requestDuration := by rw [hpre]
    have q5 : (preRequest m w r).metrics.requestsTotal = m.requestsTotal := by rw [hpre]
    have all := And.intro (f.activeDisplayStreams.trans q1) (And.intro (fa.1.trans q2)
      (And.intro (fa.2.trans q3) (And.intro (f.requestDuration.trans q4)
        (f.requestsTotal.trans q5))))
    simp only
    rcases prometheusMiddleware_metrics next elapsed m w r with e | e <;> rw [e]
    · rw [postRequest_audio _ _ _ _ h]
      exact all
    · exact all
  | standard =>
    obtain ⟨h1, h2⟩ := (regime_standard_iff _).1 hr
    have hpre := preRequest_standard m w r h1 h2
    have fd := f.display (by rw [hpre]; rfl)
    have fa := f.audio (by rw [hpre]; rfl)
    have q : (preRequest m w r).metrics = m := by rw [hpre]
    have all := And.intro (f.activeDisplayStreams.trans (by rw [q]))
      (And.intro (f.activeAudioStreams.trans (by rw [q]))
        (And.intro (fd.1.trans (by rw [q])) (And.intro (fd.2.trans (by rw [q]))
          (And.intro (fa.1.trans (by rw [q])) (fa.2.trans (by rw [q]))))))
    simp only
    rcases prometheusMiddleware_metrics next elapsed m w r with e | e <;> rw [e]
    · rw [postRequest_standard _ _ _ _ h1 h2]
      exact all
    · exact all

/-! ### The recorded status of a handler run -/

/-- The recorded status after one handler step that returns. -/
theorem step_status {s s1 : HandlerState} (op : HandlerOp) (h : s.step op = .ret s1) :
    s1.aw.status = stepStatus s.aw.status op := by
  cases op with
  | writeHeader c =>
    simp only [HandlerState.step, GoResult.ret.injEq] at h
    subst h
    rfl
  | hijack conn err =>
    by_cases hh : s.aw.ResponseWriter.isHijacker = true
    · simp only [HandlerState.step, Hijack_of_isHijacker _ _ _ hh, GoResult.ret.injEq] at h
      subst h
      show (if _ then _ else _ : apiResponseWriter).status = _
      simp only [stepStatus]
      split_ifs <;> rfl
    · simp [HandlerState.step, apiResponseWriter.Hijack, hh] at h
  | read b size err =>
    cases hc : s.conn with
    | none => simp [HandlerState.step, hc] at h
    | some w =>
      by_cases hn : w.Conn.isSome = true
      · simp only [HandlerState.step, hc, hn, if_true, GoResult.ret.injEq] at h
        subst h
        rfl
      · simp [HandlerState.step, hc, hn] at h
  | write b size err =>
    cases hc : s.conn with
    | none => simp [HandlerState.step, hc] at h
    | some w =>
      by_cases hn : w.Conn.isSome = true
      · simp only [HandlerState.step, hc, hn, if_true, GoResult.ret.injEq] at h
        subst h
        rfl
      · simp [HandlerState.step, hc, hn] at h
  | panic => simp [HandlerState.step] at h

/-- A run that returns has made its first step and then run the rest. -/
theorem ServeHTTP_cons_returned {op : HandlerOp} {ops : List HandlerOp} {s : HandlerState}
    (h : (ServeHTTP (op :: ops) s).1 = .returned) :
    ∃ s1, s.step op = .ret s1 ∧ ServeHTTP (op :: ops) s = ServeHTTP ops s1 := by
  cases hs : s.step op with
  | ret s1 => exact ⟨s1, rfl, by simp [ServeHTTP, hs]⟩
  | panicked => simp [ServeHTTP, hs] at h

/-- Without a `WriteHeader` call, a recorded status other than 200 stays. -/
theorem status_kept (ops : List HandlerOp) (s : HandlerState)
    (hret : (ServeHTTP ops s).1 = .returned) (hw : lastWritten ops = none)
    (h200 : s.aw.status ≠ StatusOK) :
    (ServeHTTP ops s).2.aw.status = s.aw.status := by
  induction ops generalizing s with
  | nil => rfl
  | cons op ops ih =>
    obtain ⟨s1, hs, he⟩ := ServeHTTP_cons_returned hret
    rw [he] at hret ⊢
    have hw1 : lastWritten ops = none := by
      simp only [lastWritten] at hw
      cases hl : lastWritten ops with
      | none => rfl
      | some c => rw [hl] at hw; cases hw
    have hst := step_status op hs
    have hs1 : s1.aw.status = s.aw.status := by
      cases op with
      | writeHeader c => simp [lastWritten, hw1] at hw
      | hijack conn err => simpa [stepStatus, h200] using hst
      | read b size err => exact hst
      | write b size err => exact hst
      | panic => exact hst
    rw [ih s1 hret hw1 (by rw [hs1]; exact h200), hs1]

/-- Without a successful `Hijack`, the recorded status is the last code written,
or the status the run started with. -/
theorem status_without_upgrade (ops : List HandlerOp) (s : HandlerState)
    (hret : (ServeHTTP ops s).1 = .returned) (hu : upgraded ops = false) :
    (ServeHTTP ops s).2.aw.status = (lastWritten ops).getD s.aw.status := by
  induction ops generalizing s with
  | nil => rfl
  | cons op ops ih =>
    obtain ⟨s1, hs, he⟩ := ServeHTTP_cons_returned hret
    rw [he] at hret ⊢
    have hst := step_status op hs
    have hu1 : upgraded ops = false := by
      cases op with
      | hijack conn err =>
        cases err with
        | none => simp [upgraded] at hu
        | some e => simpa [upgraded] using hu
      | writeHeader c => simpa [upgraded] using hu
      | read b size err => simpa [upgraded] using hu
      | write b size err => simpa [upgraded] using hu
      | panic => simpa [upgraded] using hu
    rw [ih s1 hret hu1]
    cases hl : lastWritten ops with
    | some c => simp [lastWritten, hl]
    | none =>
      cases op with
      | writeHeader c => simpa [lastWritten, hl, stepStatus] using hst
      | hijack conn err =>
        cases err with
        | none => simp [upgraded] at hu
        | some e => simpa [lastWritten, hl, stepStatus] using hst
      | read b size err => simpa [lastWritten, hl, stepStatus] using hst
      | write b size err => simpa [lastWritten, hl, stepStatus] using hst
      | panic => simpa [lastWritten, hl, stepStatus] using hst

/-- A last written code other than 200 is the recorded status. -/
theorem status_last_written (ops : List HandlerOp) (s : HandlerState) (c : Int)
    (hret : (ServeHTTP ops s).1 = .returned) (hw : lastWritten ops = some c)
    (hc : c ≠ StatusOK) :
    (ServeHTTP ops s).2.aw.status = c := by
  induction ops generalizing s with
  | nil => simp [lastWritten] at hw
  | cons op ops ih =>
    obtain ⟨s1, hs, he⟩ := ServeHTTP_cons_returned hret
    rw [he] at hret ⊢
    cases hl : lastWritten ops with
    | some d =>
      have : d = c := by simpa [lastWritten, hl] using hw
      subst this
      exact ih s1 hret hl
    | none =>
      cases op with
      | writeHeader d =>
        have hd : d = c := by simpa [lastWritten, hl] using hw
        subst hd
        have hst : s1.aw.status = d := step_status _ hs
        rw [status_kept ops s1 hret hl (by rw [hst]; exact hc), hst]
      | hijack conn err => simp [lastWritten, hl] at hw
      | read b size err => simp [lastWritten, hl] at hw
      | write b size err => simp [lastWritten, hl] at hw
      | panic => simp [lastWritten, hl] at hw

/-- A successful `Hijack` without any `WriteHeader` call turns the initial 200
into 101. -/
theorem status_upgraded (ops : List HandlerOp) (s : HandlerState)
    (hret : (ServeHTTP ops s).1 = .returned) (hw : lastWritten ops = none)
    (hu : upgraded ops = true) (h200 : s.aw.status = StatusOK) :
    (ServeHTTP ops s).2.aw.status = StatusSwitchingProtocols := by
  induction ops generalizing s with
  | nil => simp [upgraded] at hu
  | cons op ops ih =>
    obtain ⟨s1, hs, he⟩ := ServeHTTP_cons_returned hret
    rw [he] at hret ⊢
    have hw1 : lastWritten ops = none := by
      simp only [lastWritten] at hw
      cases hl : lastWritten ops with
      | none => rfl
      | some c => rw [hl] at hw; cases hw
    have hst := step_status op hs
    cases op with
    | writeHeader c => simp [lastWritten, hw1] at hw
    | hijack conn err =>
      cases err with
      | none =>
        have h1 : s1.aw.status = StatusSwitchingProtocols := by simpa [stepStatus, h200] using hst
        rw [status_kept ops s1 hret hw1 (by rw [h1]; decide), h1]
      | some e =>
        have h1 : s1.aw.status = StatusOK := by simpa [stepStatus, h200] using hst
        exact ih s1 hret hw1 (by simpa [upgraded] using hu) h1
    | read b size err => exact ih s1 hret hw1 (by simpa [upgraded] using hu) (hst.trans h200)
    | write b size err => exact ih s1 hret hw1 (by simpa [upgraded] using hu) (hst.trans h200)
    | panic => exact ih s1 hret hw1 (by simpa [upgraded] using hu) (hst.trans h200)

/-! ### Standard requests -/

theorem wrap_status (w : ResponseWriter) : (apiResponseWriter.wrap w).status = StatusOK := rfl

/-- C2, counterexample.  `GET /api/foo` whose handler writes no status and hijacks
the connection successfully: the handler returns, yet the request counter under
code `200` is not incremented; the increment goes to code `101`. -/
theorem standard_upgrade_counted_as_101 :
    HasSuffix apiRequest.path "websockify" = false ∧
      HasSuffix apiRequest.path "wsaudio" = false ∧
      (prometheusMiddleware [.hijack (some 1) none] 7 Metrics.zero sampleWriter
          apiRequest).1 = .returned ∧
      lastWritten [.hijack (some 1) none] = none ∧
      (prometheusMiddleware [.hijack (some 1) none] 7 Metrics.zero sampleWriter
          apiRequest).2.1.requestsTotal "/api/foo" "200" "GET" =
        Metrics.zero.requestsTotal "/api/foo" "200" "GET" ∧
      (prometheusMiddleware [.hijack (some 1) none] 7 Metrics.zero sampleWriter
          apiRequest).2.1.requestsTotal "/api/foo" "101" "GET" =
        Metrics.zero.requestsTotal "/api/foo" "101" "GET" + 1 := by
  decide

/-- C2, amended.  For a standard request whose handler returns, the latency
histogram gains exactly one observation, at the labels `(path, method)`, and
the request counter exactly one increment, at the labels `(path, code, method)`
where `code` is the decimal rendering of `Status()` at that moment; no other
label of either changes.  `Status()` is then the code of the handler's last
`WriteHeader` call, or 200 if it made none, when the handler did not hijack
successfully; it is the code of the last `WriteHeader` call whenever that code
is not 200; and it is 101 when the handler made no `WriteHeader` call and
hijacked successfully. -/
theorem standard_request_recorded_once (next : List HandlerOp) (elapsed : Nat) (m : Metrics)
    (w : ResponseWriter) (r : Request)
    (h1 : HasSuffix r.path "websockify" = false) (h2 : HasSuffix r.path "wsaudio" = false)
    (hret : (prometheusMiddleware next elapsed m w r).1 = .returned) :
    (∀ p me, (prometheusMiddleware next elapsed m w r).2.1.requestDuration p me =
        if p = r.path ∧ me = r.Method then m.requestDuration p me ++ [elapsed]
        else m.requestDuration p me) ∧
      (∀ p c me, (prometheusMiddleware next elapsed m w r).2.1.requestsTotal p c me =
        if p = r.path ∧ c = Itoa (prometheusMiddleware next elapsed m w r).2.2.Status ∧
            me = r.Method
        then m.requestsTotal p c me + 1 else m.requestsTotal p c me) ∧
      (upgraded next = false →
        (prometheusMiddleware next elapsed m w r).2.2.Status = (lastWritten next).getD 200) ∧
      (∀ c, lastWritten next = some c → c ≠ 200 →
        (prometheusMiddleware next elapsed m w r).2.2.Status = c) ∧
      (lastWritten next = none → upgraded next = true →
        (prometheusMiddleware next elapsed m w r).2.2.Status = 101) := by
  have f := ServeHTTP_frame next m w r
  have hpre := preRequest_standard m w r h1 h2
  have hs0 : (preRequest m w r).aw.status = StatusOK := by rw [hpre]; rfl
  have hq : (preRequest m w r).metrics = m := by rw [hpre]
  have hret1 : (ServeHTTP next (preRequest m w r)).1 = .returned := by
    rw [← prometheusMiddleware_outcome next elapsed]; exact hret
  have hres := prometheusMiddleware_returned _ _ _ _ _ hret
  have hd : (ServeHTTP next (preRequest m w r)).2.metrics.requestDuration =
      m.requestDuration := f.requestDuration.trans (by rw [hq])
  have ht : (ServeHTTP next (preRequest m w r)).2.metrics.requestsTotal =
      m.requestsTotal := f.requestsTotal.trans (by rw [hq])
  rw [hres]
  refine ⟨fun p me => ?_, fun p c me => ?_, fun hu => ?_, fun c hw hc => ?_, fun hw hu => ?_⟩
  · simp only [postRequest_standard _ _ _ _ h1 h2, observeAt, hd]
  · simp only [postRequest_standard _ _ _ _ h1 h2, incAt, ht]
  · show (ServeHTTP next (preRequest m w r)).2.aw.status = _
    rw [status_without_upgrade next _ hret1 hu, hs0]
    rfl
  · exact status_last_written next _ c hret1 hw hc
  · exact status_upgraded next _ hret1 hw hu hs0

/-- C2 at `GET /api/foo` answered with 404. -/
theorem standard_request_recorded_once_witness :
    HasSuffix apiRequest.path "websockify" = false ∧
      HasSuffix apiRequest.path "wsaudio" = false ∧
      (prometheusMiddleware [.writeHeader 404] 7 Metrics.zero sampleWriter apiRequest).1 =
        .returned ∧
      ((∀ p me, (prometheusMiddleware [.writeHeader 404] 7 Metrics.zero sampleWriter
            apiRequest).2.1.requestDuration p me =
          if p = apiRequest.path ∧ me = apiRequest.Method
          then Metrics.zero.requestDuration p me ++ [7]
          else Metrics.zero.requestDuration p me) ∧
        (∀ p c me, (prometheusMiddleware [.writeHeader 404] 7 Metrics.zero sampleWriter
            apiRequest).2.1.requestsTotal p c me =
          if p = apiRequest.path ∧
              c = Itoa (prometheusMiddleware [.writeHeader 404] 7 Metrics.zero sampleWriter
                apiRequest).2.2.Status ∧
              me = apiRequest.Method
          then Metrics.zero.requestsTotal p c me + 1 else Metrics.zero.requestsTotal p c me) ∧
        (upgraded [.writeHeader 404] = false →
          (prometheusMiddleware [.writeHeader 404] 7 Metrics.zero sampleWriter
            apiRequest).2.2.Status = (lastWritten [.writeHeader 404]).getD 200) ∧
        (∀ c, lastWritten [.writeHeader 404] = some c → c ≠ 200 →
          (prometheusMiddleware [.writeHeader 404] 7 Metrics.zero sampleWriter
            apiRequest).2.2.Status = c) ∧
        (lastWritten [.writeHeader 404] = none → upgraded [.writeHeader 404] = true →
          (prometheusMiddleware [.writeHeader 404] 7 Metrics.zero sampleWriter
            apiRequest).2.2.Status = 101)) ∧
      apiRequest.path = "/api/foo" ∧
      Itoa (prometheusMiddleware [.writeHeader 404] 7 Metrics.zero sampleWriter
        apiRequest).2.2.Status = "404" :=
  ⟨by decide, by decide, by decide,
    standard_request_recorded_once [.writeHeader 404] 7 Metrics.zero sampleWriter apiRequest
      (by decide) (by decide) (by decide),
    by decide, by decide⟩

end Kvdi
